import Mathlib

/-!
Verification development for the enterprise AI knowledge assistant repository.

The Python sources are shallowly embedded: dictionaries with a fixed key set
become Lean structures, dynamically shaped JSON-like data becomes the `Val`
inductive, raised exceptions become `Except String` (carrying `str(e)`), and
the external services (LLM, SMTP relay, vector index) become oracles passed in
as function arguments, so that every code path of the embedded functions is a
path of the source.
-/

namespace EKA

/-- A Python/JSON-like value: the dynamic data shape used by the tool layer.
Numbers are modelled as rationals. -/
inductive Val where
  | null : Val
  | bool : Bool → Val
  | str : String → Val
  | num : ℚ → Val
  | list : List Val → Val
  | dict : List (String × Val) → Val
deriving Repr

/-- Python dict lookup (`d.get(k)`): first binding wins (keys are unique in the
source's dicts, and insertion order is preserved). -/
def lookupVal : List (String × Val) → String → Option Val
  | [], _ => none
  | (k, v) :: rest, key => if k = key then some v else lookupVal rest key

/-- ASCII lowercasing, `str.lower()` for the ASCII keys the source compares
(Char.toLower maps exactly the ASCII uppercase range). -/
def lowerStr (s : String) : String := String.mk (s.data.map Char.toLower)

/-- Python `s.startswith(pat)`. -/
def listStarts : List Char → List Char → Bool
  | [], _ => true
  | _ :: _, [] => false
  | c :: cs, d :: ds => c = d && listStarts cs ds

/-- Python `s.startswith(pat)` on strings. -/
def strStarts (pat s : String) : Bool := listStarts pat.data s.data

/-- Python truthiness (`bool(v)`) for the value shapes the source tests. -/
def pyTruthy : Val → Bool
  | Val.null => false
  | Val.bool b => b
  | Val.str s => ¬ s = ""
  | Val.num q => ¬ q = 0
  | Val.list [] => false
  | Val.list (_ :: _) => true
  | Val.dict [] => false
  | Val.dict (_ :: _) => true

/-! ## src/mcp/base_tool.py — BaseMCPTool.safe_execute (claim C1) -/

/-- BaseMCPTool.safe_execute: the outcome of `await self.execute(**kwargs)` is
either a returned value or a raised exception with message `str(e)`; the
wrapper converts both into the uniform envelope. Logging calls are pure
side effects and are omitted. -/
def safeExecute (toolName : String) (outcome : Except String Val) : Val :=
  match outcome with
  | Except.ok r =>
      Val.dict [("success", Val.bool true), ("result", r), ("tool_name", Val.str toolName)]
  | Except.error e =>
      Val.dict [("success", Val.bool false), ("error", Val.str e), ("tool_name", Val.str toolName)]

/-! ## src/agents/workflow.py — action_execution_node redaction (claim C2) -/

/-- The sensitive-key set of `_redact` in workflow.action_execution_node. -/
def sensitiveKeys : List String :=
  ["password", "sender_password", "api_key", "token", "secret", "authorization"]

/-- Whether one dict entry is acceptably masked: a key whose lowercased name is
sensitive must map to the literal placeholder string. `String.toLower`
lowercases exactly the ASCII range, which agrees with Python `str.lower()` on
every key the redactor compares against (all are ASCII). -/
def isMaskedStr : Val → Bool
  | Val.str s => s = "***"
  | _ => false

def maskedEntry (k : String) (v : Val) : Bool :=
  if lowerStr k ∈ sensitiveKeys then isMaskedStr v else true

mutual

/-- The `_redact` helper of workflow.action_execution_node: masks any dict
entry whose lowercased key is sensitive, and recurses through nested dicts
and lists. -/
def pyRedact : Val → Val
  | Val.dict kvs => Val.dict (pyRedactKVs kvs)
  | Val.list xs => Val.list (pyRedactList xs)
  | Val.null => Val.null
  | Val.bool b => Val.bool b
  | Val.str s => Val.str s
  | Val.num q => Val.num q

def pyRedactList : List Val → List Val
  | [] => []
  | x :: rest => pyRedact x :: pyRedactList rest

def pyRedactKVs : List (String × Val) → List (String × Val)
  | [] => []
  | (k, v) :: rest =>
      (if lowerStr k ∈ sensitiveKeys then (k, Val.str "***") else (k, pyRedact v))
        :: pyRedactKVs rest

end

mutual

/-- Decidable check that, at every nesting depth (through dicts and lists),
every entry under a sensitive lowercased key is the masked placeholder. -/
def maskedOK : Val → Bool
  | Val.dict kvs => maskedOKKVs kvs
  | Val.list xs => maskedOKList xs
  | Val.null => true
  | Val.bool _ => true
  | Val.str _ => true
  | Val.num _ => true

def maskedOKList : List Val → Bool
  | [] => true
  | x :: rest => maskedOK x && maskedOKList rest

def maskedOKKVs : List (String × Val) → Bool
  | [] => true
  | (k, v) :: rest => maskedEntry k v && maskedOK v && maskedOKKVs rest

end

/-- The fields of the tool-result dict that action_execution_node reads:
`tool_result["success"]`, `tool_result["result"]`, `tool_result["error"]`,
`tool_result.get("tool_params", \x7b\x7d)`. -/
structure ToolResultFields where
  success : Bool
  result : Val
  error : String
  toolParams : Option Val

/-- The Action Record built by workflow.action_execution_node for a tool
result: on success it carries the redacted tool parameters; on failure it
carries only the error (no tool_params key). -/
def actionRecord (toolCategory : Val) (tr : ToolResultFields) : Val :=
  if tr.success then
    Val.dict [("type", toolCategory), ("status", Val.str "completed"),
              ("result", tr.result),
              ("tool_params", pyRedact (tr.toolParams.getD (Val.dict [])))]
  else
    Val.dict [("type", toolCategory), ("status", Val.str "failed"),
              ("error", Val.str tr.error)]

/-- The `tool_params` entry of an action record, when present. -/
def recordToolParams (record : Val) : Option Val :=
  match record with
  | Val.dict kvs => lookupVal kvs "tool_params"
  | _ => none

/-! ## src/mcp/calendar_tools.py — CalendarEventTool (claim C3) -/

/-- One stored calendar event: the dict built by `_create_event` has exactly
these keys (`updated_at` is added by `_update_event`). -/
structure CalEvent where
  id : String
  title : String
  startTime : String
  endTime : String
  description : String
  location : String
  attendees : List String
  createdAt : String
  updatedAt : Option String
deriving Repr, DecidableEq

/-- Result dict of `_create_event`. -/
structure CalCreateResult where
  action : String
  eventId : String
  event : CalEvent
  status : String
deriving Repr, DecidableEq

/-- Result dict of `_list_events`. -/
structure CalListResult where
  action : String
  events : List CalEvent
  totalCount : Nat
  dateFilter : Option String
deriving Repr, DecidableEq

/-- Result dict of `_update_event`. -/
structure CalUpdateResult where
  action : String
  eventId : String
  updatedFields : List String
  event : CalEvent
  status : String
deriving Repr, DecidableEq

/-- Result dict of `_delete_event`. -/
structure CalDeleteResult where
  action : String
  eventId : String
  status : String
deriving Repr, DecidableEq

/-- CalendarEventTool._create_event. `nowTs` stands for
`datetime.now().timestamp()` rendered into the id, `nowIso` for
`datetime.now().isoformat()`; both are inputs of the model since they read
the wall clock. The event list is the tool's `self.events`. -/
def createEvent (events : List CalEvent) (title startTime endTime : String)
    (description location : Option String) (attendees : Option (List String))
    (nowTs nowIso : String) : CalCreateResult × List CalEvent :=
  let eventId := "event_" ++ toString (events.length + 1) ++ "_" ++ nowTs
  let event : CalEvent :=
    { id := eventId, title := title, startTime := startTime, endTime := endTime,
      description := description.getD "", location := location.getD "",
      attendees := attendees.getD [], createdAt := nowIso, updatedAt := none }
  (⟨"create", eventId, event, "created"⟩, events ++ [event])

/-- CalendarEventTool._list_events: `if date_filter:` is Python truthiness, so
an empty-string filter behaves like no filter. -/
def listEvents (events : List CalEvent) (dateFilter : Option String) : CalListResult :=
  let filtered :=
    match dateFilter with
    | none => events
    | some f => if f = "" then events else events.filter (fun e => strStarts f e.startTime)
  ⟨"list", filtered, filtered.length, dateFilter⟩

/-- The optional update fields of `_update_event` (`kwargs` restricted to the
updatable field list, in the source's field order). -/
structure CalUpdate where
  title : Option String := none
  startTime : Option String := none
  endTime : Option String := none
  description : Option String := none
  location : Option String := none
  attendees : Option (List String) := none

/-- Applies the `_update_event` field loop to one event, returning the mutated
event and the `updated_fields` names in the source's order. -/
def applyCalUpdate (e : CalEvent) (u : CalUpdate) (nowIso : String) : CalEvent × List String :=
  let (e, f1) := match u.title with
    | some t => ({ e with title := t }, ["title"]) | none => (e, [])
  let (e, f2) := match u.startTime with
    | some t => ({ e with startTime := t }, ["start_time"]) | none => (e, [])
  let (e, f3) := match u.endTime with
    | some t => ({ e with endTime := t }, ["end_time"]) | none => (e, [])
  let (e, f4) := match u.description with
    | some t => ({ e with description := t }, ["description"]) | none => (e, [])
  let (e, f5) := match u.location with
    | some t => ({ e with location := t }, ["location"]) | none => (e, [])
  let (e, f6) := match u.attendees with
    | some t => ({ e with attendees := t }, ["attendees"]) | none => (e, [])
  ({ e with updatedAt := some nowIso }, f1 ++ f2 ++ f3 ++ f4 ++ f5 ++ f6)

/-- CalendarEventTool._update_event: finds the first event with the given id
(`next(...)`), mutates it in place, or raises ValueError when absent. -/
def updateEvent (events : List CalEvent) (eventId : String) (u : CalUpdate)
    (nowIso : String) : Except String (CalUpdateResult × List CalEvent) :=
  match events with
  | [] => Except.error ("事件不存在: " ++ eventId)
  | e :: rest =>
      if e.id = eventId then
        let (e2, fields) := applyCalUpdate e u nowIso
        Except.ok (⟨"update", eventId, fields, e2, "updated"⟩, e2 :: rest)
      else
        match updateEvent rest eventId u nowIso with
        | Except.ok (r, rest2) => Except.ok (r, e :: rest2)
        | Except.error msg => Except.error msg

/-- CalendarEventTool._delete_event: removes the first event with the given id
or raises ValueError when absent. -/
def deleteEvent (events : List CalEvent) (eventId : String) :
    Except String (CalDeleteResult × List CalEvent) :=
  match events with
  | [] => Except.error ("事件不存在: " ++ eventId)
  | e :: rest =>
      if e.id = eventId then Except.ok (⟨"delete", eventId, "deleted"⟩, rest)
      else
        match deleteEvent rest eventId with
        | Except.ok (r, rest2) => Except.ok (r, e :: rest2)
        | Except.error msg => Except.error msg

/-! ## src/rag/retriever.py — DocumentRetriever.retrieve_documents (claim C4) -/

/-- One vector-store search result as the retriever consumes it:
`result["content"]`, `result["metadata"].get("filename"/"category")`, and
`result["similarity_score"]` (a float, modelled as a rational). -/
structure SearchResult where
  content : String
  filename : Option String
  category : Option String
  similarityScore : ℚ
deriving Repr

/-- Substring containment, `pat in s` for Python strings. -/
def subListOf (pat : List Char) : List Char → Bool
  | [] => pat = []
  | c :: rest => (pat = List.take pat.length (c :: rest)) || subListOf pat rest

/-- Python `pat in s` on strings. -/
def strContains (s pat : String) : Bool := subListOf pat.data s.data

/-- Python `str.strip()`: drops leading and trailing whitespace. -/
def pyStrip (s : String) : String :=
  String.mk (((s.data.dropWhile Char.isWhitespace).reverse.dropWhile Char.isWhitespace).reverse)

/-- Renders a similarity score with 3 decimals, as `f"..:.3f"` does for the
scores at hand. Ties at exactly half a thousandth are rounded up here, where
Python rounds the underlying binary double to even; no score compared by the
claims sits on such a boundary. -/
def fmt3 (q : ℚ) : String :=
  let sign := if q.num < 0 then "-" else ""
  let n := (2000 * q.num.natAbs + q.den) / (2 * q.den)
  let ip := n / 1000
  let fp := n % 1000
  let pad := if fp < 10 then "00" else if fp < 100 then "0" else ""
  sign ++ toString ip ++ "." ++ pad ++ toString fp

/-- The keyword enhancement step of retrieve_documents. -/
def enhanceQuery (query : String) : String :=
  if strContains query "年假" || strContains query "休假" || strContains query "假期" then
    query ++ " 公司政策 员工福利 休假制度"
  else query

/-- The enriched labeled block built for one surviving result (the f-string of
retrieve_documents followed by `.strip()`). -/
def enrichBlock (r : SearchResult) : String :=
  pyStrip ("\n文档来源: " ++ r.filename.getD "未知"
    ++ "\n文档类别: " ++ r.category.getD "未知"
    ++ "\n相似度: " ++ fmt3 r.similarityScore
    ++ "\n\n内容:\n" ++ r.content ++ "\n")

/-- DocumentRetriever.retrieve_documents. The vector store is an oracle
`search query nRequested filterCategory`; the retriever passes it the enhanced
query, `n_results * 4`, and the category filter, then drops results whose
similarity score is below `min_similarity`, keeps the first `n_results`
survivors, and renders each as an enriched block. -/
def retrieveDocuments (search : String → Nat → Option String → List SearchResult)
    (query : String) (nResults : Nat) (filterCategory : Option String)
    (minSimilarity : ℚ) : List String :=
  let enhanced := enhanceQuery query
  let results := search enhanced (nResults * 4) filterCategory
  let filtered := results.filter (fun r => minSimilarity ≤ r.similarityScore)
  (filtered.take nResults).map enrichBlock

/-! ## src/api/routes.py — upload_document (claim C5) -/

/-- A FastAPI HTTPException as raised by the route handler. -/
structure HTTPError where
  statusCode : Nat
  detail : String
deriving Repr, DecidableEq

/-- Starlette renders `str(HTTPException)` as "status_code: detail". -/
def strOfHTTPError (e : HTTPError) : String := toString e.statusCode ++ ": " ++ e.detail

/-- The successful DocumentUploadResponse. -/
structure UploadResponse where
  filename : String
  fileSize : Nat
  uploadId : String
  status : String
deriving Repr, DecidableEq

/-- Python `Path(name).suffix`: the extension of the final dot, which must be
neither the first nor the last character of the name. -/
def pySuffix (name : String) : String :=
  let rev := name.data.reverse
  match rev.span (fun c => ¬ c = '.') with
  | (ext, '.' :: before) =>
      if before = [] || ext = [] then "" else String.mk ('.' :: ext.reverse)
  | _ => ""

/-- The allowed extensions of upload_document. -/
def allowedExtensions : List String := [".pdf", ".docx", ".txt"]

/-- A rendering of the Python set literal interpolated into the 400 detail
(`f"...支持的类型: ..."` renders repr of the set; the repr's exact quoting and
ordering is a CPython detail abstracted into this constant). -/
def allowedExtensionsRepr : String := "\x7b.pdf, .docx, .txt\x7d"

/-- The body of upload_document inside its `try:`: rejects an extension not in
the allowed set with a 400, rejects `file.size > settings.max_file_size` with
a 400, and otherwise saves the file and answers "uploaded". `maxFileSize` is
the configured maximum (default 10 * 1024 * 1024) and `uploadId` stands for
the generated uuid. Filesystem writes and the background indexing task do not
affect the response and are omitted. -/
def uploadDocumentInner (filename : String) (size : Nat) (maxFileSize : Nat)
    (uploadId : String) : Except HTTPError UploadResponse :=
  let ext := lowerStr (pySuffix filename)
  if ¬ ext ∈ allowedExtensions then
    Except.error ⟨400, "不支持的文件类型: " ++ ext ++ "。支持的类型: " ++ allowedExtensionsRepr⟩
  else if size > maxFileSize then
    Except.error ⟨400, "文件太大: " ++ toString size ++ " 字节。最大允许: "
      ++ toString maxFileSize ++ " 字节"⟩
  else
    Except.ok ⟨filename, size, uploadId, "uploaded"⟩

/-- upload_document as a whole: its `except Exception as e:` clause also
catches the route's own HTTPExceptions (FastAPI's HTTPException subclasses
Exception), re-raising every failure as a 500 whose detail embeds `str(e)`. -/
def uploadDocument (filename : String) (size : Nat) (maxFileSize : Nat)
    (uploadId : String) : Except HTTPError UploadResponse :=
  match uploadDocumentInner filename size maxFileSize uploadId with
  | Except.ok r => Except.ok r
  | Except.error e => Except.error ⟨500, "文档上传失败: " ++ strOfHTTPError e⟩

/-- The configured default maximum upload size (config/settings.py). -/
def defaultMaxFileSize : Nat := 10 * 1024 * 1024

/-! ## src/mcp/email_tools.py — EmailSendTool.execute (claims C6, C9) -/

/-- The outcomes of the three SMTP phases of EmailSendTool.execute, each an
`Except` whose error is the raised exception's message: `connect` covers the
`smtplib.SMTP(...)` construction together with `starttls` (their failures hit
the outer handlers), `login` covers `server.login` (its failures hit the two
inner handlers), `send` covers `server.sendmail` (its failure hits the inner
handler). Every one of those handlers returns False; `server.quit` errors are
suppressed and have no effect on the result. -/
structure SMTPSession where
  connect : Except String Unit
  login : Except String Unit
  send : Except String Unit

/-- EmailSendTool.execute: returns the Python boolean False on any failure and
the result dict on success. `message_id` is `msg.get("Message-ID")`, which is
None because nothing ever sets that header on the constructed message. -/
def emailSendExecute (s : SMTPSession) (toAddresses : List String)
    (subject body senderEmail senderPassword : String)
    (ccAddresses : Option (List String)) : Val :=
  match s.connect with
  | Except.error _ => Val.bool false
  | Except.ok _ =>
    match s.login with
    | Except.error _ => Val.bool false
    | Except.ok _ =>
      match s.send with
      | Except.error _ => Val.bool false
      | Except.ok _ =>
          Val.dict [("status", Val.str "sent"),
                    ("to_addresses", Val.list (toAddresses.map Val.str)),
                    ("cc_addresses", Val.list ((ccAddresses.getD []).map Val.str)),
                    ("subject", Val.str subject),
                    ("message_id", Val.null)]

/-- The email send tool behind the framework boundary: `safe_execute` invokes
`execute`, which catches every SMTP failure itself and returns instead of
raising, so the wrapped outcome is always `Except.ok`. -/
def emailSendSafeExecute (s : SMTPSession) (toAddresses : List String)
    (subject body senderEmail senderPassword : String)
    (ccAddresses : Option (List String)) : Val :=
  safeExecute "email_send"
    (Except.ok (emailSendExecute s toAddresses subject body senderEmail senderPassword ccAddresses))

/-! ## src/agents/knowledge_agent.py — _execute_composite_tools (claims C7, C10) -/

/-- Python `d.get(k)`: None when absent. -/
def dictGet (kvs : List (String × Val)) (k : String) : Val :=
  (lookupVal kvs k).getD Val.null

/-- Python `d.get(k, default)`. -/
def dictGetD (kvs : List (String × Val)) (k : String) (default : Val) : Val :=
  (lookupVal kvs k).getD default

/-- Python `d[k] = v`: replaces in place or appends a new binding. -/
def setKey : List (String × Val) → String → Val → List (String × Val)
  | [], k, v => [(k, v)]
  | (k0, v0) :: rest, k, v =>
      if k0 = k then (k, v) :: rest else (k0, v0) :: setKey rest k v

/-- Python `d.pop(k)` on a dict with unique keys: the popped value (when
present) and the dict without that binding. -/
def popKey : List (String × Val) → String → Option Val × List (String × Val)
  | [], _ => (none, [])
  | (k0, v0) :: rest, k =>
      if k0 = k then (some v0, rest)
      else
        let (r, rest2) := popKey rest k
        (r, (k0, v0) :: rest2)

/-- Python `v == "s"` for a dynamic value against a string literal. -/
def valIsStr (v : Val) (s : String) : Bool :=
  match v with
  | Val.str t => t = s
  | _ => false

/-- The environment the composite executor runs in. `toolsMap` is the key set
of `self.tools_map`; `extractParams query category` is
`_extract_tool_parameters` (total: it catches its own failures and falls back);
`extractEmailWithMeeting query meetingInfo` is
`_extract_email_parameters_with_meeting`; `dispatch category toolName params`
is `self.tools_map[category].execute_tool(toolName, **params)`, which raises
(the `Except.error` case, carrying `str(e)`) when the tool name is not one of
the collection's tools and otherwise returns the safe-execute envelope dict. -/
structure CompositeEnv where
  toolsMap : List String
  extractParams : String → String → List (String × Val)
  extractEmailWithMeeting : String → Val → List (String × Val)
  dispatch : String → Val → List (String × Val) → Except String (List (String × Val))

/-- The mutable state of the composite loop: the accumulated
`results` entries, the `all_success` flag, and `meeting_info`
(initially Python None). -/
structure CompState where
  results : List Val
  allSuccess : Bool
  meetingInfo : Val

/-- The email template+send pre-fill of the composite branch (and of the
single-category path): when the extracted parameters carry a dict under
"template", the email collection's template tool is invoked; a raised failure
is caught and ignored, and otherwise a falsy subject/body is filled from
`template_result.get(...)` — note the source reads those keys off the
safe-execute envelope, where they are absent, so the fill stores None. -/
def emailTemplatePrefill (env : CompositeEnv) (params : List (String × Val)) :
    List (String × Val) :=
  match lookupVal params "template" with
  | some (Val.dict templateInfo) =>
      match env.dispatch "email" (Val.str "email_template") templateInfo with
      | Except.error _ => params
      | Except.ok envl =>
          if pyTruthy (Val.dict envl) then
            let p1 := if pyTruthy (dictGet params "subject") then params
                      else setKey params "subject" (dictGet envl "subject")
            if pyTruthy (dictGet p1 "body") then p1
            else setKey p1 "body" (dictGet envl "body")
          else params
  | _ => params

/-- The per-meeting creation loop of the `_multiple_meetings` branch: strips
underscore-prefixed keys, requires a truthy tool name (raising the source's
ValueError message otherwise), dispatches, and latches `meeting_info` to the
first successful creation's event (or an empty dict). A non-dict meeting
entry raises, as iterating `.items()` on it would. -/
def runMeetings (env : CompositeEnv) (category : String) :
    List Val → Val → Except String (List (List (String × Val)) × Val)
  | [], mi => Except.ok ([], mi)
  | Val.dict mp :: rest, mi =>
      let clean := mp.filter (fun kv => ¬ strStarts "_" kv.1)
      let tn := dictGet clean "tool_name"
      if ¬ pyTruthy tn then Except.error "缺少必要的tool_name参数"
      else
        match env.dispatch category tn (clean.filter (fun kv => ¬ kv.1 = "tool_name")) with
        | Except.error e => Except.error e
        | Except.ok mr =>
          let mi2E : Except String Val :=
            if ¬ pyTruthy mi && pyTruthy (dictGet mr "success") then
              match dictGetD mr "result" (Val.dict []) with
              | Val.dict rf =>
                  Except.ok (if pyTruthy (dictGet rf "event") then dictGetD rf "event" (Val.dict [])
                             else Val.dict [])
              | _ => Except.error "AttributeError"
            else Except.ok mi
          match mi2E with
          | Except.error e => Except.error e
          | Except.ok mi2 =>
            match runMeetings env category rest mi2 with
            | Except.error e => Except.error e
            | Except.ok (mrs, miF) => Except.ok (mr :: mrs, miF)
  | _ :: _, _ => Except.error "AttributeError"

/-- The `successful_meetings` comprehension over the meeting results. -/
def collectSuccessfulMeetings : List (List (String × Val)) → Except String (List Val)
  | [] => Except.ok []
  | mr :: rest =>
      match collectSuccessfulMeetings rest with
      | Except.error e => Except.error e
      | Except.ok tail =>
        if pyTruthy (dictGet mr "success") then
          match dictGetD mr "result" (Val.dict []) with
          | Val.dict rf =>
              let ev := dictGetD rf "event" (Val.dict [])
              Except.ok (if pyTruthy ev then ev :: tail else tail)
          | _ => Except.error "AttributeError"
        else Except.ok tail

/-- One iteration of the composite loop over one category name. -/
def execCompositeStep (env : CompositeEnv) (query : String) (st : CompState)
    (category : String) : Except String CompState :=
  if ¬ category ∈ env.toolsMap then
    Except.ok { st with allSuccess := false }
  else
    let params0 :=
      if category = "email" && pyTruthy st.meetingInfo then
        env.extractEmailWithMeeting query st.meetingInfo
      else env.extractParams query category
    if category = "calendar" && (lookupVal params0 "_multiple_meetings").isSome then
      let (mVal, params1) := popKey params0 "_multiple_meetings"
      match mVal.getD Val.null with
      | Val.list ms =>
        (match runMeetings env category ms st.meetingInfo with
         | Except.error e => Except.error e
         | Except.ok (mrs, mi1) =>
           match collectSuccessfulMeetings mrs with
           | Except.error e => Except.error e
           | Except.ok successful =>
             let allOk := mrs.all (fun mr => pyTruthy (dictGetD mr "success" (Val.bool false)))
             let result := Val.dict
               [("success", Val.bool allOk),
                ("result", Val.dict [("action", Val.str "create_multiple"),
                                     ("meetings", Val.list successful),
                                     ("total_created", Val.num (successful.length : ℚ))])]
             let mi2 :=
               if successful.isEmpty then mi1
               else Val.dict [("meetings", Val.list successful),
                              ("total_created", Val.num (successful.length : ℚ))]
             Except.ok { results := st.results ++
                           [Val.dict [("category", Val.str category), ("result", result),
                                      ("tool_params", Val.dict params1)]],
                         allSuccess := st.allSuccess, meetingInfo := mi2 })
      | _ => Except.error "TypeError"
    else
      let params1 := if category = "email" then emailTemplatePrefill env params0 else params0
      let tn := dictGet params1 "tool_name"
      if ¬ pyTruthy tn then Except.error "缺少必要的tool_name参数"
      else
        match env.dispatch category tn (params1.filter (fun kv => ¬ kv.1 = "tool_name")) with
        | Except.error e => Except.error e
        | Except.ok result =>
          let mi2E : Except String Val :=
            if category = "calendar" && pyTruthy (dictGet result "success") then
              match dictGetD result "result" (Val.dict []) with
              | Val.dict rf =>
                  Except.ok (if valIsStr (dictGet rf "action") "create" then
                               dictGetD rf "event" (Val.dict [])
                             else st.meetingInfo)
              | _ => Except.error "AttributeError"
            else Except.ok st.meetingInfo
          match mi2E with
          | Except.error e => Except.error e
          | Except.ok mi2 =>
            Except.ok { results := st.results ++
                          [Val.dict [("category", Val.str category), ("result", Val.dict result),
                                     ("tool_params", Val.dict params1)]],
                        allSuccess := st.allSuccess, meetingInfo := mi2 }

/-- The sequential loop over the listed categories. -/
def execCompositeLoop (env : CompositeEnv) (query : String) :
    List String → CompState → Except String CompState
  | [], st => Except.ok st
  | c :: cs, st =>
      match execCompositeStep env query st c with
      | Except.error e => Except.error e
      | Except.ok st2 => execCompositeLoop env query cs st2

/-- Python `s.split("|")` on the character list. -/
def splitPipeAux : List Char → List Char → List String
  | [], acc => [String.mk acc.reverse]
  | c :: rest, acc =>
      if c = '|' then String.mk acc.reverse :: splitPipeAux rest []
      else splitPipeAux rest (c :: acc)

/-- The category list: `tool_category.split("|")` with each part stripped. -/
def splitCategories (toolCategory : String) : List String :=
  (splitPipeAux toolCategory.data []).map pyStrip

/-- The initial loop state. -/
def compInit : CompState := ⟨[], true, Val.null⟩

/-- KnowledgeAgent._execute_composite_tools: runs the loop and wraps the
aggregate envelope; a raised failure anywhere in the loop is caught by the
outermost handler and converted into a plain failure envelope (without the
composite marker). -/
def executeCompositeTools (env : CompositeEnv) (toolCategory query : String) : Val :=
  match execCompositeLoop env query (splitCategories toolCategory) compInit with
  | Except.ok st =>
      Val.dict [("success", Val.bool st.allSuccess),
                ("result", Val.dict
                  [("composite_results", Val.list st.results),
                   ("total_tools", Val.num ((splitCategories toolCategory).length : ℚ)),
                   ("executed_tools", Val.num (st.results.length : ℚ))]),
                ("tool_category", Val.str toolCategory),
                ("tool_params", Val.dict [("composite", Val.bool true)])]
  | Except.error e =>
      Val.dict [("success", Val.bool false), ("error", Val.str e),
                ("tool_category", Val.str toolCategory)]

/-- One field of a dict-shaped value, when present. -/
def dictField (v : Val) (k : String) : Option Val :=
  match v with
  | Val.dict kvs => lookupVal kvs k
  | _ => none

/-- The "category" field of a composite_results entry. -/
def entryCategory (v : Val) : Option Val := dictField v "category"

/-- The shape of one composite_results entry. -/
def isCompositeEntry (v : Val) : Prop :=
  ∃ c r p, v = Val.dict [("category", Val.str c), ("result", r), ("tool_params", p)]

/-- A composite environment in which a calendar extraction hands the calendar
collection a tool name it does not know (as an LLM reply
tool_name "bogus" would), so the collection's execute_tool raises. -/
def envCompRaise : CompositeEnv where
  toolsMap := ["file", "email", "calendar"]
  extractParams := fun _ _ => [("tool_name", Val.str "bogus"), ("action", Val.str "create")]
  extractEmailWithMeeting := fun _ _ => [("tool_name", Val.str "email_send")]
  dispatch := fun _ _ _ => Except.error "未知的日历工具: bogus"

/-- As envCompRaise but with the email collection rejecting the tool name. -/
def envCompRaise2 : CompositeEnv where
  toolsMap := ["file", "email", "calendar"]
  extractParams := fun _ _ => [("tool_name", Val.str "bogus")]
  extractEmailWithMeeting := fun _ _ => [("tool_name", Val.str "email_send")]
  dispatch := fun _ _ _ => Except.error "未知的邮件工具: bogus"

/-- A composite environment where every step completes and every sub-tool
invocation returns a failure envelope from safe_execute. -/
def envCompBenign : CompositeEnv where
  toolsMap := ["file", "email", "calendar"]
  extractParams := fun _ _ => [("tool_name", Val.str "t")]
  extractEmailWithMeeting := fun _ _ => [("tool_name", Val.str "email_send")]
  dispatch := fun _ _ _ => Except.ok [("success", Val.bool false), ("error", Val.str "boom")]

/-- The loop state envCompBenign reaches on "calendar|email". -/
def stCompBenign : CompState where
  results := [Val.dict [("category", Val.str "calendar"),
                        ("result", Val.dict [("success", Val.bool false),
                                             ("error", Val.str "boom")]),
                        ("tool_params", Val.dict [("tool_name", Val.str "t")])],
              Val.dict [("category", Val.str "email"),
                        ("result", Val.dict [("success", Val.bool false),
                                             ("error", Val.str "boom")]),
                        ("tool_params", Val.dict [("tool_name", Val.str "t")])]]
  allSuccess := true
  meetingInfo := Val.null

/-! ## src/agents/knowledge_agent.py — _process_calendar_time (claim C8) -/

/-- A wall-clock datetime, at the granularity _process_calendar_time uses:
an abstract day counter (date arithmetic such as month ends is folded into
it), an hour, and a minute. `replace(..., second=0, microsecond=0)` zeroes the
finer fields, so they are not carried. -/
structure PyDateTime where
  day : ℤ
  hour : ℕ
  minute : ℕ
deriving Repr, DecidableEq

/-- Python `timedelta(days=n)` addition. -/
def addDays (d : PyDateTime) (n : ℤ) : PyDateTime := ⟨d.day + n, d.hour, d.minute⟩

/-- Python `dt.replace(hour=h, minute=m, second=0, microsecond=0)`: raises
ValueError when the hour or minute is out of range. -/
def pyReplace (d : PyDateTime) (h m : ℕ) : Option PyDateTime :=
  if h ≤ 23 ∧ m ≤ 59 then some ⟨d.day, h, m⟩ else none

/-- Python `dt + timedelta(hours=1)`. -/
def addOneHour (d : PyDateTime) : PyDateTime :=
  if d.hour + 1 ≤ 23 then ⟨d.day, d.hour + 1, d.minute⟩ else ⟨d.day + 1, 0, d.minute⟩

/-- Character is an ASCII digit, as `\d` matches on the queries at hand. -/
def isDig (c : Char) : Bool := '0' ≤ c ∧ c ≤ '9'

/-- Numeric value of an ASCII digit. -/
def digVal (c : Char) : ℕ := c.toNat - '0'.toNat

/-- Leftmost match of the regex `(\d{1,2})点`: at each position the greedy
group first tries two digits, then one, each followed by the literal. -/
def findNDian : List Char → Option ℕ
  | [] => none
  | c :: rest =>
      if isDig c then
        match rest with
        | d :: e :: _ =>
            if isDig d ∧ e = '点' then some (10 * digVal c + digVal d)
            else if d = '点' then some (digVal c)
            else findNDian rest
        | [d] => if d = '点' then some (digVal c) else findNDian rest
        | [] => none
      else findNDian rest

/-- At one position: match `(\d{1,2})点` right after a fixed two-character
lead-in has been consumed. -/
def matchDigitsDian (cs : List Char) : Option ℕ :=
  match cs with
  | c :: d :: e :: _ =>
      if isDig c ∧ isDig d ∧ e = '点' then some (10 * digVal c + digVal d)
      else if isDig c ∧ d = '点' then some (digVal c)
      else none
  | [c, d] => if isDig c ∧ d = '点' then some (digVal c) else none
  | _ => none

/-- Leftmost match of `下午(\d{1,2})点`. -/
def findXiawuDian : List Char → Option ℕ
  | [] => none
  | '下' :: rest =>
      (match rest with
       | '午' :: tail =>
           match matchDigitsDian tail with
           | some n => some n
           | none => findXiawuDian rest
       | _ => findXiawuDian rest)
  | _ :: rest => findXiawuDian rest

/-- Leftmost match of `上午(\d{1,2})点`. -/
def findShangwuDian : List Char → Option ℕ
  | [] => none
  | '上' :: rest =>
      (match rest with
       | '午' :: tail =>
           match matchDigitsDian tail with
           | some n => some n
           | none => findShangwuDian rest
       | _ => findShangwuDian rest)
  | _ :: rest => findShangwuDian rest

/-- Leftmost match of `(\d{1,2}):(\d{2})`, returning hour and minute groups. -/
def findColonTime : List Char → Option (ℕ × ℕ)
  | [] => none
  | c :: rest =>
      if isDig c then
        match rest with
        | d :: ':' :: m1 :: m2 :: _ =>
            if isDig d ∧ isDig m1 ∧ isDig m2 then
              some (10 * digVal c + digVal d, 10 * digVal m1 + digVal m2)
            else findColonTime rest
        | ':' :: m1 :: m2 :: _ =>
            if isDig m1 ∧ isDig m2 then some (digVal c, 10 * digVal m1 + digVal m2)
            else findColonTime rest
        | _ => findColonTime rest
      else findColonTime rest

/-- The ordered scan of _process_calendar_time over its `time_patterns` list,
breaking at the first pattern with a match; the default is 14:00. Only the
`H:MM` pattern sets the minute (the source keys this on `":(" in pattern`),
and it adds 12 to the hour when "下午" occurs anywhere in the query and the
hour is below 12. -/
def scanHourMinute (query : String) : ℕ × ℕ :=
  let cs := query.data
  match findNDian cs with
  | some n => (n, 0)
  | none =>
    match findXiawuDian cs with
    | some n => (if n < 12 then n + 12 else n, 0)
    | none =>
      match findShangwuDian cs with
      | some n => (n, 0)
      | none =>
        match findColonTime cs with
        | some (h, m) =>
            (if strContains query "下午" ∧ h < 12 then h + 12 else h, m)
        | none => (14, 0)

/-- The relative-day selection of _process_calendar_time: 明天, else 后天,
else 今天, else tomorrow by default. -/
def targetDate (query : String) (now : PyDateTime) : PyDateTime :=
  if strContains query "明天" then addDays now 1
  else if strContains query "后天" then addDays now 2
  else if strContains query "今天" then now
  else addDays now 1

/-- KnowledgeAgent._process_calendar_time, restricted to the start/end values
it writes into the parameter map. The params' own start_time/end_time are read
into local variables by the source but never used, so they are not inputs
here; `none` is the ValueError raised by `replace` when the scanned hour or
minute is out of range (in which case the LLM extraction does not return and
the rule-based fallback takes over instead). -/
def processCalendarTime (query : String) (now : PyDateTime) :
    Option (PyDateTime × PyDateTime) :=
  let td := targetDate query now
  let (h, m) := scanHourMinute query
  match pyReplace td h m with
  | none => none
  | some start => some (start, addOneHour start)

/-- The derivation exactly as claim C8 words it: the day is
tomorrow/day-after/today for 明天/后天/今天 (default tomorrow); the hour and
minute come from the ordered four-pattern scan with default 14:00. -/
def claimDerivedStart (query : String) (now : PyDateTime) : PyDateTime :=
  let base := targetDate query now
  let hm := scanHourMinute query
  ⟨base.day, hm.1, hm.2⟩

/-! ## Theorems -/

mutual

theorem maskedOK_pyRedact : (v : Val) → maskedOK (pyRedact v) = true
  | Val.null => rfl
  | Val.bool _ => rfl
  | Val.str _ => rfl
  | Val.num _ => rfl
  | Val.list xs => by
      rw [pyRedact, maskedOK, maskedOKList_pyRedactList xs]
  | Val.dict kvs => by
      rw [pyRedact, maskedOK, maskedOKKVs_pyRedactKVs kvs]

theorem maskedOKList_pyRedactList : (xs : List Val) → maskedOKList (pyRedactList xs) = true
  | [] => rfl
  | x :: rest => by
      rw [pyRedactList, maskedOKList, maskedOK_pyRedact x, maskedOKList_pyRedactList rest]
      rfl

theorem maskedOKKVs_pyRedactKVs : (kvs : List (String × Val)) →
    maskedOKKVs (pyRedactKVs kvs) = true
  | [] => rfl
  | (k, v) :: rest => by
      rw [pyRedactKVs]
      by_cases h : lowerStr k ∈ sensitiveKeys
      · rw [if_pos h, maskedOKKVs, maskedOKKVs_pyRedactKVs rest, maskedEntry, if_pos h]
        rfl
      · rw [if_neg h, maskedOKKVs, maskedOKKVs_pyRedactKVs rest, maskedEntry, if_neg h,
            maskedOK_pyRedact v]
        rfl

end

/-- Claim C1: for every registered tool (an arbitrary name together with an
arbitrary behavior of its `execute`) and every parameter map (absorbed into
that behavior), `safe_execute` never propagates an exception: a returned value
becomes a success-true envelope carrying the value and the tool's name, and a
raised exception becomes a success-false envelope carrying the message and the
tool's name. -/
theorem safe_execute_total_envelope (toolName : String) (outcome : Except String Val) :
    (∀ r, outcome = Except.ok r →
      safeExecute toolName outcome =
        Val.dict [("success", Val.bool true), ("result", r),
                  ("tool_name", Val.str toolName)]) ∧
    (∀ e, outcome = Except.error e →
      safeExecute toolName outcome =
        Val.dict [("success", Val.bool false), ("error", Val.str e),
                  ("tool_name", Val.str toolName)]) := by
  constructor
  · intro r h
    rw [h]
    rfl
  · intro e h
    rw [h]
    rfl

/-- Witness for C1 at a concrete tool and both outcomes. -/
theorem safe_execute_total_envelope_witness :
    safeExecute "calendar_event" (Except.ok (Val.str "ok")) =
      Val.dict [("success", Val.bool true), ("result", Val.str "ok"),
                ("tool_name", Val.str "calendar_event")] ∧
    safeExecute "calendar_event" (Except.error "事件不存在: e1") =
      Val.dict [("success", Val.bool false), ("error", Val.str "事件不存在: e1"),
                ("tool_name", Val.str "calendar_event")] :=
  ⟨(safe_execute_total_envelope "calendar_event" (Except.ok (Val.str "ok"))).1 _ rfl,
   (safe_execute_total_envelope "calendar_event" (Except.error "事件不存在: e1")).2 _ rfl⟩

/-- Claim C2: for every Action Record built by the action-execution node and
every key at any nesting depth of the record's tool_params (through nested
dicts and lists), a key whose lowercased name is password, sender_password,
api_key, token, secret or authorization carries the masked placeholder. -/
theorem action_record_tool_params_masked (toolCategory : Val) (tr : ToolResultFields)
    (v : Val) (h : recordToolParams (actionRecord toolCategory tr) = some v) :
    maskedOK v = true := by
  unfold actionRecord at h
  by_cases hs : tr.success
  · rw [if_pos hs] at h
    unfold recordToolParams at h
    simp only [lookupVal, String.reduceEq, reduceIte, Option.some.injEq] at h
    rw [← h]
    exact maskedOK_pyRedact _
  · rw [if_neg hs] at h
    unfold recordToolParams at h
    simp only [lookupVal, String.reduceEq, reduceIte] at h
    exact Option.noConfusion h

/-- Witness for C2 at a concrete successful tool result with nested sensitive
keys. -/
theorem action_record_tool_params_masked_witness :
    recordToolParams (actionRecord (Val.str "email")
        ⟨true, Val.null, "", some (Val.dict
          [("sender_password", Val.str "lgntvtzvjpzbbibc"),
           ("cfg", Val.list [Val.dict [("Api_Key", Val.str "k")]])])⟩) =
      some (Val.dict [("sender_password", Val.str "***"),
                      ("cfg", Val.list [Val.dict [("Api_Key", Val.str "***")]])]) ∧
    maskedOK (Val.dict [("sender_password", Val.str "***"),
                        ("cfg", Val.list [Val.dict [("Api_Key", Val.str "***")]])]) = true :=
  ⟨rfl,
   action_record_tool_params_masked (Val.str "email")
     ⟨true, Val.null, "", some (Val.dict
        [("sender_password", Val.str "lgntvtzvjpzbbibc"),
         ("cfg", Val.list [Val.dict [("Api_Key", Val.str "k")]])])⟩
     (Val.dict [("sender_password", Val.str "***"),
                ("cfg", Val.list [Val.dict [("Api_Key", Val.str "***")]])]) rfl⟩

/-- Claim C3: starting from an empty event list, create returns status
"created" with a non-empty event id; list then returns that event; updating
the title by that id returns status "updated" with "title" among the updated
fields; deleting the id returns status "deleted"; and deleting it a second
time raises the NotFound-style ValueError instead of succeeding. -/
theorem calendar_event_lifecycle (title startTime endTime newTitle nowT iso1 iso2 : String) :
    (createEvent [] title startTime endTime none none none nowT iso1).1.status = "created" ∧
    ¬ (createEvent [] title startTime endTime none none none nowT iso1).1.eventId = "" ∧
    (listEvents (createEvent [] title startTime endTime none none none nowT iso1).2 none).events
      = [(createEvent [] title startTime endTime none none none nowT iso1).1.event] ∧
    (match updateEvent (createEvent [] title startTime endTime none none none nowT iso1).2
        (createEvent [] title startTime endTime none none none nowT iso1).1.eventId
        { title := some newTitle } iso2 with
     | Except.ok (r2, s2) =>
         r2.status = "updated" ∧ "title" ∈ r2.updatedFields ∧
         (match deleteEvent s2
             (createEvent [] title startTime endTime none none none nowT iso1).1.eventId with
          | Except.ok (r3, s3) =>
              r3.status = "deleted" ∧
              deleteEvent s3
                  (createEvent [] title startTime endTime none none none nowT iso1).1.eventId
                = Except.error ("事件不存在: "
                    ++ (createEvent [] title startTime endTime none none none nowT iso1).1.eventId)
          | Except.error _ => False)
     | Except.error _ => False) := by
  refine ⟨rfl, ?_, rfl, ?_⟩
  · intro h
    simp only [createEvent] at h
    have h2 := congrArg String.data h
    simp [String.data_append] at h2
  · simp [createEvent, updateEvent, applyCalUpdate, deleteEvent]

/-- Claim C4: the retriever requests 4 times n_results raw matches from the
vector store, discards every match below min_similarity, and returns at most
n_results survivors as enriched blocks in the store's order; on raw scores
0.42, 0.20, 0.10 with threshold 0.15 exactly the first two survive. -/
theorem retriever_threshold_filtering :
    (∀ search query n fc minSim,
      retrieveDocuments search query n fc minSim =
        (((search (enhanceQuery query) (n * 4) fc).filter
            (fun r => minSim ≤ r.similarityScore)).take n).map enrichBlock) ∧
    (∀ search query n fc minSim, (retrieveDocuments search query n fc minSim).length ≤ n) ∧
    (∀ query fc (r1 r2 r3 : SearchResult),
      r1.similarityScore = mkRat 42 100 → r2.similarityScore = mkRat 20 100 →
      r3.similarityScore = mkRat 10 100 →
      retrieveDocuments (fun _ _ _ => [r1, r2, r3]) query 5 fc (mkRat 15 100) =
        [enrichBlock r1, enrichBlock r2]) := by
  refine ⟨fun _ _ _ _ _ => rfl, ?_, ?_⟩
  · intro search query n fc minSim
    simp only [retrieveDocuments, List.length_map, List.length_take]
    exact min_le_left _ _
  · intro query fc r1 r2 r3 h1 h2 h3
    have e1 : decide (mkRat 15 100 ≤ r1.similarityScore) = true := by rw [h1]; rfl
    have e2 : decide (mkRat 15 100 ≤ r2.similarityScore) = true := by rw [h2]; rfl
    have e3 : decide (mkRat 15 100 ≤ r3.similarityScore) = false := by rw [h3]; rfl
    simp only [retrieveDocuments, List.filter, e1, e2, e3, List.take, List.map]

/-- Witness for C4 at a concrete store response. -/
theorem retriever_threshold_filtering_witness :
    retrieveDocuments (fun _ _ _ =>
        [⟨"A", none, none, mkRat 42 100⟩, ⟨"B", none, none, mkRat 20 100⟩,
         ⟨"C", none, none, mkRat 10 100⟩]) "查询" 5 none (mkRat 15 100) =
      [enrichBlock ⟨"A", none, none, mkRat 42 100⟩,
       enrichBlock ⟨"B", none, none, mkRat 20 100⟩] :=
  retriever_threshold_filtering.2.2 "查询" none _ _ _ rfl rfl rfl

/-- Claim C5 (code-bug evidence): both rejection paths of upload_document do
construct a 400 HTTPException, but the handler's blanket `except Exception`
catches it and re-raises a 500, so the client observes 500 where the spec
(and the handler's own raise statements) say 400 — for a disallowed
extension and for an oversized file alike. -/
theorem upload_rejections_surface_as_500 :
    uploadDocumentInner "report.exe" 100 defaultMaxFileSize "u1" =
      Except.error ⟨400, "不支持的文件类型: .exe。支持的类型: \x7b.pdf, .docx, .txt\x7d"⟩ ∧
    uploadDocument "report.exe" 100 defaultMaxFileSize "u1" =
      Except.error ⟨500,
        "文档上传失败: 400: 不支持的文件类型: .exe。支持的类型: \x7b.pdf, .docx, .txt\x7d"⟩ ∧
    uploadDocumentInner "big.pdf" (defaultMaxFileSize + 1) defaultMaxFileSize "u1" =
      Except.error ⟨400, "文件太大: 10485761 字节。最大允许: 10485760 字节"⟩ ∧
    uploadDocument "big.pdf" (defaultMaxFileSize + 1) defaultMaxFileSize "u1" =
      Except.error ⟨500, "文档上传失败: 400: 文件太大: 10485761 字节。最大允许: 10485760 字节"⟩ ∧
    (500 : Nat) ≠ 400 :=
  ⟨rfl, rfl, rfl, rfl, by decide⟩

/-- Helper: any failed SMTP phase makes EmailSendTool.execute return False. -/
theorem emailSendExecute_failure (s : SMTPSession) (toAddrs : List String)
    (subject body senderEmail senderPassword : String) (cc : Option (List String))
    (h : ¬ s.connect = Except.ok () ∨ ¬ s.login = Except.ok () ∨ ¬ s.send = Except.ok ()) :
    emailSendExecute s toAddrs subject body senderEmail senderPassword cc = Val.bool false := by
  unfold emailSendExecute
  rcases hc : s.connect with e | u
  · rfl
  · cases u
    rcases hl : s.login with e | u
    · rfl
    · cases u
      rcases hs : s.send with e | u
      · rfl
      · cases u
        exfalso
        rcases h with h | h | h
        · exact h hc
        · exact h hl
        · exact h hs

/-- Helper: with every SMTP phase succeeding, EmailSendTool.execute returns
the sent-result dict. -/
theorem emailSendExecute_sent (s : SMTPSession) (toAddrs : List String)
    (subject body senderEmail senderPassword : String) (cc : Option (List String))
    (hc : s.connect = Except.ok ()) (hl : s.login = Except.ok ())
    (hs : s.send = Except.ok ()) :
    emailSendExecute s toAddrs subject body senderEmail senderPassword cc =
      Val.dict [("status", Val.str "sent"),
                ("to_addresses", Val.list (toAddrs.map Val.str)),
                ("cc_addresses", Val.list ((cc.getD []).map Val.str)),
                ("subject", Val.str subject), ("message_id", Val.null)] := by
  unfold emailSendExecute
  rw [hc, hl, hs]

/-- Claim C6: EmailSendTool.execute returns the boolean False on any SMTP
authentication, connection, protocol or unexpected error (it neither raises —
it is a total function here because every handler returns — nor produces a
map), and on success returns the sent-result map with status, recipients,
cc list, subject and message id. -/
theorem email_send_boolean_failure_shape (s : SMTPSession) (toAddrs : List String)
    (subject body senderEmail senderPassword : String) (cc : Option (List String)) :
    (¬ s.connect = Except.ok () ∨ ¬ s.login = Except.ok () ∨ ¬ s.send = Except.ok () →
      emailSendExecute s toAddrs subject body senderEmail senderPassword cc = Val.bool false) ∧
    (s.connect = Except.ok () → s.login = Except.ok () → s.send = Except.ok () →
      emailSendExecute s toAddrs subject body senderEmail senderPassword cc =
        Val.dict [("status", Val.str "sent"),
                  ("to_addresses", Val.list (toAddrs.map Val.str)),
                  ("cc_addresses", Val.list ((cc.getD []).map Val.str)),
                  ("subject", Val.str subject), ("message_id", Val.null)]) :=
  ⟨emailSendExecute_failure s toAddrs subject body senderEmail senderPassword cc,
   emailSendExecute_sent s toAddrs subject body senderEmail senderPassword cc⟩

/-- Witness for C6 at one failing and one succeeding session. -/
theorem email_send_boolean_failure_shape_witness :
    emailSendExecute ⟨Except.ok (), Except.error "SMTPAuthenticationError", Except.ok ()⟩
        ["a@b.com"] "主题" "正文" "s@qq.com" "pw" none = Val.bool false ∧
    emailSendExecute ⟨Except.ok (), Except.ok (), Except.ok ()⟩
        ["a@b.com"] "主题" "正文" "s@qq.com" "pw" none =
      Val.dict [("status", Val.str "sent"),
                ("to_addresses", Val.list [Val.str "a@b.com"]),
                ("cc_addresses", Val.list []),
                ("subject", Val.str "主题"), ("message_id", Val.null)] :=
  ⟨(email_send_boolean_failure_shape ⟨Except.ok (), Except.error "SMTPAuthenticationError",
      Except.ok ()⟩ ["a@b.com"] "主题" "正文" "s@qq.com" "pw" none).1
      (Or.inr (Or.inl (by simp))),
   (email_send_boolean_failure_shape ⟨Except.ok (), Except.ok (), Except.ok ()⟩
      ["a@b.com"] "主题" "正文" "s@qq.com" "pw" none).2 rfl rfl rfl⟩

/-- Claim C9: because EmailSendTool.execute converts every SMTP failure into
a returned False instead of raising, safe_execute wraps a failed send as
success: the envelope handed to every caller is success-true with result
False and the tool name — a failed send is never surfaced as success-false
through the tool framework. -/
theorem email_failure_wrapped_as_success (s : SMTPSession) (toAddrs : List String)
    (subject body senderEmail senderPassword : String) (cc : Option (List String))
    (h : ¬ s.connect = Except.ok () ∨ ¬ s.login = Except.ok () ∨ ¬ s.send = Except.ok ()) :
    emailSendSafeExecute s toAddrs subject body senderEmail senderPassword cc =
      Val.dict [("success", Val.bool true), ("result", Val.bool false),
                ("tool_name", Val.str "email_send")] := by
  unfold emailSendSafeExecute safeExecute
  rw [emailSendExecute_failure s toAddrs subject body senderEmail senderPassword cc h]

/-- Witness for C9 at a concrete failing session. -/
theorem email_failure_wrapped_as_success_witness :
    emailSendSafeExecute ⟨Except.error "SMTPConnectError", Except.ok (), Except.ok ()⟩
        ["a@b.com"] "主题" "正文" "s@qq.com" "pw" none =
      Val.dict [("success", Val.bool true), ("result", Val.bool false),
                ("tool_name", Val.str "email_send")] :=
  email_failure_wrapped_as_success ⟨Except.error "SMTPConnectError", Except.ok (), Except.ok ()⟩
    ["a@b.com"] "主题" "正文" "s@qq.com" "pw" none (Or.inl (by simp))

/-- Helper: a category missing from the tool map only clears the success flag
and executes nothing. -/
theorem execCompositeStep_absent (env : CompositeEnv) (query : String) (st : CompState)
    (category : String) (hc : ¬ category ∈ env.toolsMap) (st2 : CompState)
    (h : execCompositeStep env query st category = Except.ok st2) :
    st2 = { st with allSuccess := false } := by
  unfold execCompositeStep at h
  rw [if_pos hc] at h
  simp only [Except.ok.injEq] at h
  exact h.symm

/-- Helper: a completed step on a category present in the tool map preserves
the success flag and appends exactly one category/result/tool_params entry. -/
theorem execCompositeStep_present (env : CompositeEnv) (query : String) (st : CompState)
    (category : String) (hc : category ∈ env.toolsMap) (st2 : CompState)
    (h : execCompositeStep env query st category = Except.ok st2) :
    st2.allSuccess = st.allSuccess ∧
    ∃ r p, st2.results = st.results ++
      [Val.dict [("category", Val.str category), ("result", r), ("tool_params", p)]] := by
  unfold execCompositeStep at h
  rw [if_neg (not_not_intro hc)] at h
  repeat'
    first
      | split at h
      | simp only [] at h
  all_goals
    first
      | simp only [reduceCtorEq] at h
      | (simp only [Except.ok.injEq] at h
         subst h
         exact ⟨rfl, _, _, rfl⟩)

/-- Helper: the composite loop, when it completes, aggregates success as
"every listed category is in the tool map", appends entries exactly for the
present categories in listed order, and shapes each appended entry. -/
theorem execCompositeLoop_ok_spec (env : CompositeEnv) (query : String) :
    ∀ (cats : List String) (st st' : CompState),
      execCompositeLoop env query cats st = Except.ok st' →
      st'.allSuccess = (st.allSuccess && cats.all (fun c => decide (c ∈ env.toolsMap))) ∧
      st'.results.map entryCategory =
        st.results.map entryCategory ++
          (cats.filter (fun c => decide (c ∈ env.toolsMap))).map
            (fun c => some (Val.str c)) ∧
      (∀ e ∈ st'.results, e ∈ st.results ∨ isCompositeEntry e) := by
  intro cats
  induction cats with
  | nil =>
      intro st st' h
      unfold execCompositeLoop at h
      simp only [Except.ok.injEq] at h
      subst h
      exact ⟨by simp, by simp, fun e he => Or.inl he⟩
  | cons c cs ih =>
      intro st st' h
      unfold execCompositeLoop at h
      cases hstep : execCompositeStep env query st c with
      | error e => rw [hstep] at h; exact Except.noConfusion h
      | ok st2 =>
          rw [hstep] at h
          by_cases hc : c ∈ env.toolsMap
          · obtain ⟨ha, r, p, hres⟩ := execCompositeStep_present env query st c hc st2 hstep
            obtain ⟨ih1, ih2, ih3⟩ := ih st2 st' h
            refine ⟨?_, ?_, ?_⟩
            · rw [ih1, ha, List.all_cons]
              simp [hc, Bool.and_assoc]
            · rw [ih2, hres, List.filter_cons]
              simp [hc, entryCategory, dictField, lookupVal]
            · intro e he
              rcases ih3 e he with h1 | h1
              · rw [hres] at h1
                rcases List.mem_append.mp h1 with h2 | h2
                · exact Or.inl h2
                · exact Or.inr ⟨c, r, p, List.mem_singleton.mp h2⟩
              · exact Or.inr h1
          · have h2 := execCompositeStep_absent env query st c hc st2 hstep
            subst h2
            obtain ⟨ih1, ih2, ih3⟩ := ih _ st' h
            refine ⟨?_, ?_, ?_⟩
            · rw [ih1, List.all_cons]
              simp [hc]
            · rw [ih2, List.filter_cons]
              simp [hc]
            · exact ih3

/-- Helper: the envelope built after a completed composite loop. -/
theorem executeCompositeTools_ok (env : CompositeEnv) (toolCategory query : String)
    (st : CompState)
    (h : execCompositeLoop env query (splitCategories toolCategory) compInit = Except.ok st) :
    executeCompositeTools env toolCategory query =
      Val.dict [("success", Val.bool st.allSuccess),
                ("result", Val.dict
                  [("composite_results", Val.list st.results),
                   ("total_tools", Val.num ((splitCategories toolCategory).length : ℚ)),
                   ("executed_tools", Val.num (st.results.length : ℚ))]),
                ("tool_category", Val.str toolCategory),
                ("tool_params", Val.dict [("composite", Val.bool true)])] := by
  unfold executeCompositeTools
  rw [h]

/-- Counterexample to claim C7 as stated: when a step of the composite loop
raises (here the calendar collection rejecting the extracted tool name
"bogus"), the outermost handler returns a plain failure envelope whose
tool_params marker is absent, so the returned envelope does not carry
tool_params = \x7bcomposite: true\x7d. -/
theorem composite_raise_drops_marker :
    executeCompositeTools envCompRaise "calendar|email" "帮我安排会议并发邮件" =
      Val.dict [("success", Val.bool false), ("error", Val.str "未知的日历工具: bogus"),
                ("tool_category", Val.str "calendar|email")] ∧
    dictField (executeCompositeTools envCompRaise "calendar|email" "帮我安排会议并发邮件")
      "tool_params" = none :=
  ⟨rfl, rfl⟩

/-- Claim C7 (amended): for every composite execution whose loop completes
without a raised error, the categories are executed sequentially in listed
order (the composite_results categories are exactly the listed categories
present in the tool map, in order), a category absent from the tool map makes
the envelope's success flag false without stopping the remaining categories
(which still contribute their entries), and the envelope carries
tool_params = \x7bcomposite: true\x7d with one category/result/tool_params entry
per executed category. When a step raises (unknown or falsy tool name), the
executor instead returns a plain failure envelope without the marker. -/
theorem composite_execution_structure (env : CompositeEnv) (toolCategory query : String)
    (st : CompState)
    (h : execCompositeLoop env query (splitCategories toolCategory) compInit = Except.ok st) :
    executeCompositeTools env toolCategory query =
      Val.dict [("success", Val.bool st.allSuccess),
                ("result", Val.dict
                  [("composite_results", Val.list st.results),
                   ("total_tools", Val.num ((splitCategories toolCategory).length : ℚ)),
                   ("executed_tools", Val.num (st.results.length : ℚ))]),
                ("tool_category", Val.str toolCategory),
                ("tool_params", Val.dict [("composite", Val.bool true)])] ∧
    st.results.map entryCategory =
      ((splitCategories toolCategory).filter (fun c => decide (c ∈ env.toolsMap))).map
        (fun c => some (Val.str c)) ∧
    (∀ e ∈ st.results, isCompositeEntry e) ∧
    st.allSuccess = (splitCategories toolCategory).all (fun c => decide (c ∈ env.toolsMap)) := by
  obtain ⟨h1, h2, h3⟩ := execCompositeLoop_ok_spec env query (splitCategories toolCategory)
    compInit st h
  refine ⟨executeCompositeTools_ok env toolCategory query st h, ?_, ?_, ?_⟩
  · simpa [compInit] using h2
  · intro e he
    rcases h3 e he with h4 | h4
    · exact absurd h4 (List.not_mem_nil e)
    · exact h4
  · simpa [compInit] using h1

/-- Witness for the amended C7 at a concrete environment whose two sub-tool
invocations both return failure envelopes. -/
theorem composite_execution_structure_witness :
    executeCompositeTools envCompBenign "calendar|email" "安排会议并发送邮件" =
      Val.dict [("success", Val.bool stCompBenign.allSuccess),
                ("result", Val.dict
                  [("composite_results", Val.list stCompBenign.results),
                   ("total_tools", Val.num ((splitCategories "calendar|email").length : ℚ)),
                   ("executed_tools", Val.num (stCompBenign.results.length : ℚ))]),
                ("tool_category", Val.str "calendar|email"),
                ("tool_params", Val.dict [("composite", Val.bool true)])] :=
  (composite_execution_structure envCompBenign "calendar|email" "安排会议并发送邮件"
    stCompBenign rfl).1

/-- Counterexample to claim C10 as stated: every listed category is present in
the tool map, yet the envelope's success flag is false, because the email
collection's execute_tool raised on the extracted tool name — so the flag is
not set false only by unknown category names. -/
theorem composite_known_categories_yet_failure :
    (∀ c ∈ splitCategories "email|file", c ∈ envCompRaise2.toolsMap) ∧
    dictField (executeCompositeTools envCompRaise2 "email|file" "发邮件并查文件") "success" =
      some (Val.bool false) :=
  ⟨by decide, rfl⟩

/-- Claim C10 (amended): for every composite execution in which every listed
category is present in the tool map and the loop completes without a raised
error, the envelope's success flag is true — even when every sub-tool
invocation returned a failure envelope, since the dispatch behavior is
arbitrary here; among completed loops only an unknown category name clears
the flag. -/
theorem composite_success_ignores_subtool_failures (env : CompositeEnv)
    (toolCategory query : String) (st : CompState)
    (hall : ∀ c ∈ splitCategories toolCategory, c ∈ env.toolsMap)
    (h : execCompositeLoop env query (splitCategories toolCategory) compInit = Except.ok st) :
    dictField (executeCompositeTools env toolCategory query) "success" =
      some (Val.bool true) := by
  obtain ⟨h1, h2, h3⟩ := execCompositeLoop_ok_spec env query (splitCategories toolCategory)
    compInit st h
  have hsucc : st.allSuccess = true := by
    rw [h1]
    simp only [compInit, Bool.true_and, List.all_eq_true]
    intro c hcmem
    exact decide_eq_true (hall c hcmem)
  rw [executeCompositeTools_ok env toolCategory query st h, hsucc]
  rfl

/-- Witness for the amended C10: both categories known, both sub-tool
invocations fail, and the aggregated success flag is still true. -/
theorem composite_success_ignores_subtool_failures_witness :
    dictField (executeCompositeTools envCompBenign "calendar|email" "安排会议并发送邮件")
      "success" = some (Val.bool true) :=
  composite_success_ignores_subtool_failures envCompBenign "calendar|email" "安排会议并发送邮件"
    stCompBenign (by decide) rfl

/-- Claim C8: whenever _process_calendar_time returns (exactly the case in
which a successful LLM extraction for calendar action "create" proceeds), the
start time it wrote is the deterministic derivation from the raw query text:
the day from 明天/后天/今天 with tomorrow as the default, the hour and minute
from the ordered scan over the patterns N点, 下午N点 (N+12 when N<12),
上午N点, H:MM (H+12 when "下午" occurs and H<12) with default 14:00 — the
model-proposed times are not inputs of the pass at all — and the end time is
exactly one hour after the start. -/
theorem calendar_time_renormalized (query : String) (now : PyDateTime)
    (startT endT : PyDateTime)
    (h : processCalendarTime query now = some (startT, endT)) :
    startT = claimDerivedStart query now ∧ endT = addOneHour startT := by
  unfold processCalendarTime at h
  rcases hscan : scanHourMinute query with ⟨hh, mm⟩
  rw [hscan] at h
  simp only [] at h
  unfold pyReplace at h
  by_cases hcond : hh ≤ 23 ∧ mm ≤ 59
  · rw [if_pos hcond] at h
    simp only [Option.some.injEq, Prod.mk.injEq] at h
    obtain ⟨h1, h2⟩ := h
    constructor
    · rw [← h1]
      simp [claimDerivedStart, hscan]
    · rw [← h2, ← h1]
  · rw [if_neg hcond] at h
    exact Option.noConfusion h

/-- Witness for C8: "明天下午3点开会" from day 0 at 08:05 — note the source
scans the bare N点 pattern first, so 下午3点 yields hour 3, and the end is one
hour later. -/
theorem calendar_time_renormalized_witness :
    processCalendarTime "明天下午3点开会" ⟨0, 8, 5⟩ = some (⟨1, 3, 0⟩, ⟨1, 4, 0⟩) ∧
    (⟨1, 3, 0⟩ : PyDateTime) = claimDerivedStart "明天下午3点开会" ⟨0, 8, 5⟩ ∧
    (⟨1, 4, 0⟩ : PyDateTime) = addOneHour ⟨1, 3, 0⟩ :=
  ⟨rfl,
   (calendar_time_renormalized "明天下午3点开会" ⟨0, 8, 5⟩ ⟨1, 3, 0⟩ ⟨1, 4, 0⟩ rfl).1,
   (calendar_time_renormalized "明天下午3点开会" ⟨0, 8, 5⟩ ⟨1, 3, 0⟩ ⟨1, 4, 0⟩ rfl).2⟩

end EKA
